import Mathlib

/-!
Shallow embedding of the liplib package (Lutron Integration Protocol client).

The authoritative module is src/liplib/__init__.py; the legacy near-duplicate
src/liplib/liplib.py is embedded separately where its behaviour diverges
(its open() ignores handshake-wait failures, and its async inventory loader
returns an empty list on a missing "LIPIdList" key instead of asserting).

Modelling conventions:
- bytes objects are lists of naturals (one per byte);
- the socket read half is a list of ReadEvent: each reader.read(1024) call
  consumes one event, delivering a chunk of bytes or raising OSError; an
  exhausted event list models the peer having closed the connection, so a
  read returns zero bytes;
- a TCP connect attempt is a ConnectOutcome supplied by the environment:
  either an OSError or a fresh connection with its stream of read events;
- a socket write either succeeds or raises OSError (WriteOutcome);
- each operation returns the bytes it wrote to the socket during the call;
- Python float() on the "[0-9.]+" texts the response pattern can produce is
  modelled as the exact decimal value, a rational;
- asyncio locks serialize the coroutines; the claims are about the
  sequential behaviour of single calls, so the locks have no effect here.
-/

abbrev Byte := Nat
abbrev Bytes := List Byte

/-- Bytes of an ASCII string literal, as in Python bytes literals. -/
def strBytes (s : String) : Bytes := s.toList.map Char.toNat

/-- CRLF line terminator bytes. -/
def CRLF : Bytes := [13, 10]

/-- One delivery on the read half of the socket: a chunk returned by
reader.read, or an OSError raised by it. -/
inductive ReadEvent where
  | chunk (data : Bytes)
  | ioError
deriving DecidableEq, Repr

/-- Environment response to asyncio.open_connection: OSError, or a
connection whose read half will deliver the given events. -/
inductive ConnectOutcome where
  | connectError
  | connected (events : List ReadEvent)
deriving DecidableEq, Repr

/-- Environment response to writer.write/drain on the current socket. -/
inductive WriteOutcome where
  | ok
  | ioError
deriving DecidableEq, Repr

/-- LipServer.State (IntEnum Closed=1, Opening=2, Opened=3). -/
inductive ConnState where
  | Closed
  | Opening
  | Opened
deriving DecidableEq, Repr

/-- The mutable state of a LipServer instance: read buffer, connection
state, stored endpoint and credentials, prompt, and the pending read
events of the current connection (the reader handle). -/
structure LipServer where
  read_buffer : Bytes
  state : ConnState
  host : Option String
  port : Int
  username : Bytes
  password : Bytes
  prompt : Bytes
  reader : List ReadEvent
deriving DecidableEq, Repr

/-- LipServer.DEFAULT_USER. -/
def DEFAULT_USER : Bytes := strBytes "lutron"

/-- LipServer.DEFAULT_PASSWORD. -/
def DEFAULT_PASSWORD : Bytes := strBytes "integration"

/-- LipServer.DEFAULT_PROMPT. -/
def DEFAULT_PROMPT : Bytes := strBytes "GNET> "

/-- LipServer.LOGIN_PROMPT. -/
def LOGIN_PROMPT : Bytes := strBytes "login: "

/-- LipServer.__init__. -/
def LipServer.init : LipServer :=
  { read_buffer := []
    state := ConnState.Closed
    host := none
    port := 23
    username := DEFAULT_USER
    password := DEFAULT_PASSWORD
    prompt := DEFAULT_PROMPT
    reader := [] }

/-- LipServer.is_connected: state == Opened. -/
def LipServer.is_connected (s : LipServer) : Bool :=
  s.state == ConnState.Opened

/-- Whether pat occurs at the head of l (used by bytesFind). -/
def bytesStartsWith : Bytes → Bytes → Bool
  | _, [] => true
  | [], _ :: _ => false
  | a :: l, b :: pat => a == b && bytesStartsWith l pat

/-- Python bytes.find: index of the leftmost occurrence of pat, if any. -/
def bytesFind (l pat : Bytes) : Option Nat :=
  go l 0
where
  go : Bytes → Nat → Option Nat
    | l, i =>
      if bytesStartsWith l pat then some i
      else
        match l with
        | [] => none
        | _ :: t => go t (i + 1)

/-- Result of LipServer._read_until with a bytes literal: the matched
segment through the end of the literal, or the False failure sentinel. -/
inductive UntilResult where
  | matched (upto : Bytes)
  | failed
deriving DecidableEq, Repr

/-- LipServer._read_until (__init__.py) with a bytes value: loop matching
the buffered bytes by find, refilling one chunk from the socket on a miss;
a zero-byte read (peer closed, modelled also by exhausted events) or an
OSError returns the False sentinel. Returns (result, buffer, events). -/
def read_until_lit (pat : Bytes) (buf : Bytes) (events : List ReadEvent) :
    UntilResult × Bytes × List ReadEvent :=
  match bytesFind buf pat with
  | some w =>
      (UntilResult.matched (buf.take (w + pat.length)),
       buf.drop (w + pat.length), events)
  | none =>
      match events with
      | [] => (UntilResult.failed, buf, [])
      | ReadEvent.chunk d :: rest =>
          if d.length = 0 then (UntilResult.failed, buf, rest)
          else read_until_lit pat (buf ++ d) rest
      | ReadEvent.ioError :: rest => (UntilResult.failed, buf, rest)

/-- Byte class [A-Z] of the response pattern. -/
def isUpperB (b : Byte) : Bool := 65 ≤ b && b ≤ 90

/-- Byte class [0-9.] of the response pattern. -/
def isNumDotB (b : Byte) : Bool := (48 ≤ b && b ≤ 57) || b == 46

/-- Decimal digit bytes. -/
def isDigitB (b : Byte) : Bool := 48 ≤ b && b ≤ 57

/-- A match of RESPONSE_RE: the four captured groups and the offset just
past the end of the match in the searched buffer. -/
structure ReMatch where
  g1 : Bytes
  g2 : Bytes
  g3 : Bytes
  g4 : Bytes
  endPos : Nat
deriving DecidableEq, Repr

/-- Match of RESPONSE_RE = b"~([A-Z]+),([0-9.]+),([0-9.]+),([0-9.]+)\r\n"
anchored at the head of l, returning groups and the matched length. The
character classes exclude the separators "," and CRLF, so each "+" run is
forced to its maximal extent and the pattern matches deterministically,
exactly as Python's backtracking engine resolves it. -/
def matchFrom (l : Bytes) : Option (Bytes × Bytes × Bytes × Bytes × Nat) :=
  match l with
  | [] => none
  | c0 :: r0 =>
    if c0 = 126 then
      let g1 := r0.takeWhile isUpperB
      if g1.isEmpty then none else
      match r0.drop g1.length with
      | c1 :: r1 =>
        if c1 = 44 then
          let g2 := r1.takeWhile isNumDotB
          if g2.isEmpty then none else
          match r1.drop g2.length with
          | c2 :: r2 =>
            if c2 = 44 then
              let g3 := r2.takeWhile isNumDotB
              if g3.isEmpty then none else
              match r2.drop g3.length with
              | c3 :: r3 =>
                if c3 = 44 then
                  let g4 := r3.takeWhile isNumDotB
                  if g4.isEmpty then none else
                  match r3.drop g4.length with
                  | c4 :: c5 :: _ =>
                      if c4 = 13 ∧ c5 = 10 then
                        some (g1, g2, g3, g4,
                          g1.length + g2.length + g3.length + g4.length + 6)
                      else none
                  | _ => none
                else none
              | _ => none
            else none
          | _ => none
        else none
      | _ => none
    else none

/-- Helper for reSearch: try matchFrom at each successive start offset. -/
def reSearchAux : Bytes → Nat → Option ReMatch
  | [], _ => none
  | l@(_ :: t), i =>
      match matchFrom l with
      | some (a, b, c, d, len) => some ⟨a, b, c, d, i + len⟩
      | none => reSearchAux t (i + 1)

/-- RESPONSE_RE.search: leftmost match in the buffer, if any. -/
def reSearch (buf : Bytes) : Option ReMatch :=
  reSearchAux buf 0

/-- LipServer._read_until (__init__.py) with the compiled RESPONSE_RE:
on a match the buffer is advanced past match.end(); a zero-byte read or an
OSError returns the False sentinel (none). Returns (match?, buffer, events). -/
def read_until_re (buf : Bytes) (events : List ReadEvent) :
    Option ReMatch × Bytes × List ReadEvent :=
  match reSearch buf, events with
  | some m, evs => (some m, buf.drop m.endPos, evs)
  | none, [] => (none, buf, [])
  | none, ReadEvent.chunk d :: rest =>
      if d.length = 0 then (none, buf, rest)
      else read_until_re (buf ++ d) rest
  | none, ReadEvent.ioError :: rest => (none, buf, rest)

/-- Value of a big-endian list of decimal digit bytes. -/
def digitsToNat (g : Bytes) : Nat :=
  g.foldl (fun a b => a * 10 + (b - 48)) 0

/-- Python int() on an ASCII group captured by "[0-9.]+": succeeds exactly
on a nonempty all-digit text (a dot raises ValueError). -/
def pyIntParse (g : Bytes) : Option Int :=
  if g.isEmpty then none
  else if g.all isDigitB then some (digitsToNat g : Int)
  else none

/-- Python float() on an ASCII group captured by "[0-9.]+": at most one
dot and at least one digit; the result is the exact decimal value. -/
def pyFloatParse (g : Bytes) : Option ℚ :=
  let intPart := g.takeWhile isDigitB
  match g.drop intPart.length with
  | [] => if intPart.isEmpty then none else some (digitsToNat intPart : ℚ)
  | 46 :: fracPart =>
      if fracPart.all isDigitB then
        if intPart.isEmpty && fracPart.isEmpty then none
        else some ((digitsToNat intPart : ℚ) +
                   (digitsToNat fracPart : ℚ) / (10 : ℚ) ^ fracPart.length)
      else none
  | _ => none

/-- Python str.startswith, over ASCII strings. -/
def pyStartsWith (s pre : String) : Bool :=
  bytesStartsWith (strBytes s) (strBytes pre)

/-- bytes.decode("ascii") on an all-ASCII group (never fails on [A-Z]+). -/
def asciiDecode (g : Bytes) : String :=
  String.mk (g.map Char.ofNat)

/-- The 4-tuple returned by LipServer.read. -/
abbrev ReadTuple := Option String × Option Int × Option Int × Option ℚ

/-- The absent 4-tuple (None, None, None, None). -/
def absentTuple : ReadTuple := (none, none, none, none)

/-- Arguments of one invocation of LipServer.open recorded during a call:
host, port, username, password. -/
abbrev OpenCall := Option String × Int × Bytes × Bytes

/-- LipServer.open (__init__.py). Returns the new server state and the
bytes written to the socket during the call. If the state is not Closed it
returns at once. Otherwise it sets Opening, stores host/port/username/
password, then attempts the TCP connect; an OSError resets to Closed. On
connect success the reader is replaced and the handshake runs: wait for
LOGIN_PROMPT, send username+CRLF, wait for b"password: ", send
password+CRLF, wait for the configured prompt; a failed wait resets to
Closed (the cleanup path); on full success the state becomes Opened.
Handshake writes are assumed to succeed (their drain is outside any try
in the source, so a write failure there would propagate, a path no claim
exercises). -/
def LipServer.open (s : LipServer) (host : Option String) (port : Int)
    (username password : Bytes) (co : ConnectOutcome) : LipServer × Bytes :=
  if s.state ≠ ConnState.Closed then (s, [])
  else
    let s1 := { s with state := ConnState.Opening, host := host, port := port,
                       username := username, password := password }
    match co with
    | ConnectOutcome.connectError => ({ s1 with state := ConnState.Closed }, [])
    | ConnectOutcome.connected evs =>
      let s2 := { s1 with reader := evs }
      match read_until_lit LOGIN_PROMPT s2.read_buffer s2.reader with
      | (UntilResult.failed, b1, e1) =>
          ({ s2 with read_buffer := b1, reader := e1,
                     state := ConnState.Closed }, [])
      | (UntilResult.matched _, b1, e1) =>
        let w1 := username ++ CRLF
        match read_until_lit (strBytes "password: ") b1 e1 with
        | (UntilResult.failed, b2, e2) =>
            ({ s2 with read_buffer := b2, reader := e2,
                       state := ConnState.Closed }, w1)
        | (UntilResult.matched _, b2, e2) =>
          let w2 := w1 ++ password ++ CRLF
          match read_until_lit s2.prompt b2 e2 with
          | (UntilResult.failed, b3, e3) =>
              ({ s2 with read_buffer := b3, reader := e3,
                         state := ConnState.Closed }, w2)
          | (UntilResult.matched _, b3, e3) =>
              ({ s2 with read_buffer := b3, reader := e3,
                         state := ConnState.Opened }, w2)

/-- LipServer.read (__init__.py). Returns the decoded 4-tuple, the new
server state, the bytes written during the call (only a reconnect
handshake writes), and the list of open() invocations made (the reconnect
attempts), each recording its arguments. If the state is not Opened the
absent tuple is returned at once. On a pattern match the four groups are
decoded; a ValueError (dotted int group) logs and yields the absent tuple
with no reconnect. On the False sentinel the state is set to Closed and
open() is invoked once with the stored host/port/username/password; the
absent tuple is returned whatever that attempt did. -/
def LipServer.read (s : LipServer) (co : ConnectOutcome) :
    ReadTuple × LipServer × Bytes × List OpenCall :=
  if s.state ≠ ConnState.Opened then (absentTuple, s, [], [])
  else
    match read_until_re s.read_buffer s.reader with
    | (some m, buf, evs) =>
      let s1 := { s with read_buffer := buf, reader := evs }
      match pyIntParse m.g2, pyIntParse m.g3, pyFloatParse m.g4 with
      | some i2, some i3, some v4 =>
          ((some (asciiDecode m.g1), some i2, some i3, some v4), s1, [], [])
      | _, _, _ => (absentTuple, s1, [], [])
    | (none, buf, evs) =>
      let s2 := { s with read_buffer := buf, reader := evs,
                         state := ConnState.Closed }
      let o := LipServer.open s2 s2.host s2.port s2.username s2.password co
      (absentTuple, o.1, o.2, [(s2.host, s2.port, s2.username, s2.password)])

/-- LipServer.write (__init__.py). The action argument is the underlying
integer (an IntEnum is unwrapped to .value before formatting). Builds
"#mode,integration,action", appends ",value" when value is given, then
each non-None extra positional argument in order, appends CRLF, encodes
as ASCII and sends. A no-op when the state is not Opened. An OSError from
the socket write is caught and logged: the server state is untouched and
nothing propagates. Returns the new server state and the bytes sent. -/
def LipServer.write (s : LipServer) (mode : String) (integration : Int)
    (action : Int) (args : List (Option Int)) (value : Option Int)
    (wo : WriteOutcome) : LipServer × Bytes :=
  if s.state ≠ ConnState.Opened then (s, [])
  else
    let data := "#" ++ mode ++ "," ++ toString integration ++ ","
                ++ toString action
    let data := match value with
      | some v => data ++ "," ++ toString v
      | none => data
    let data := args.foldl (fun d a =>
      match a with
      | some v => d ++ "," ++ toString v
      | none => d) data
    match wo with
    | WriteOutcome.ok => (s, strBytes (data ++ "\r\n"))
    | WriteOutcome.ioError => (s, [])

/-- LipServer.query (__init__.py). Builds "?mode,integration,action" CRLF
and sends it; a no-op when not Opened. The source wraps no try around the
write, so the success path is modelled; returns (server, sent, exception). -/
def LipServer.query (s : LipServer) (mode : String) (integration : Int)
    (action : Int) : LipServer × Bytes × Option String :=
  if s.state ≠ ConnState.Opened then (s, [], none)
  else
    (s, strBytes ("?" ++ mode ++ "," ++ toString integration ++ ","
        ++ toString action ++ "\r\n"), none)

/-- LipServer.ping (__init__.py). Sends the literal b"#PING\r\n"; a no-op
when not Opened. -/
def LipServer.ping (s : LipServer) : LipServer × Bytes × Option String :=
  if s.state ≠ ConnState.Opened then (s, [], none)
  else (s, strBytes "#PING\r\n", none)

/-- LipServer.logout (__init__.py). A no-op when not Opened; otherwise
sends b"LOGOUT\r\n" and sets the state to Closed. The write and drain are
not wrapped in a try, so an OSError propagates to the caller before the
state assignment runs: the third component reports such an uncaught
exception and the state stays Opened. -/
def LipServer.logout (s : LipServer) (wo : WriteOutcome) :
    LipServer × Bytes × Option String :=
  if s.state ≠ ConnState.Opened then (s, [], none)
  else
    match wo with
    | WriteOutcome.ok =>
        ({ s with state := ConnState.Closed }, strBytes "LOGOUT\r\n", none)
    | WriteOutcome.ioError => (s, [], some "OSError")

/-- Device/zone JSON Area object: an optional "Name" key. -/
structure AreaJson where
  Name : Option String
deriving DecidableEq, Repr

/-- Zone entry of the integration report: "ID", "Name", optional "Area". -/
structure ZoneJson where
  ID : Int
  Name : String
  Area : Option AreaJson
deriving DecidableEq, Repr

/-- Button entry of a device: "Number" and "Name". -/
structure ButtonJson where
  Number : Int
  Name : String
deriving DecidableEq, Repr

/-- Device entry of the integration report: "ID", "Name", optional
"Buttons" list, optional "Area". -/
structure DeviceJson where
  ID : Int
  Name : String
  Buttons : Option (List ButtonJson)
  Area : Option AreaJson
deriving DecidableEq, Repr

/-- The "LIPIdList" object: optional "Zones" and "Devices" arrays. -/
structure LipIdList where
  Zones : Option (List ZoneJson)
  Devices : Option (List DeviceJson)
deriving DecidableEq, Repr

/-- A whole integration report document: optional top-level "LIPIdList".
A missing key is none (an empty-dict value, also falsy for the assert in
load_integration_report, is not distinguished here; no claim needs it). -/
structure IntegrationReport where
  LIPIdList : Option LipIdList
deriving DecidableEq, Repr

/-- One device descriptor dict produced by the loaders: keys "id", "name",
"type" always present, "scene_id"/"area_name"/"buttons" present when set. -/
structure DeviceEntry where
  id : Int
  name : String
  type : String
  scene_id : Option Int := none
  area_name : Option String := none
  buttons : Option (List Int) := none
deriving DecidableEq, Repr

/-- load_integration_report (__init__.py). Asserts the "LIPIdList" key is
present (an AssertionError propagates as Except.error); zones become
"light" descriptors whose "area_name" is set only when the Area/Name chain
yields a nonempty string; device ID 1 contributes one "scene" descriptor
per button whose name does not start with "Button "; every other device
becomes a "sensor" descriptor with its button numbers and an "area_name"
always set (possibly the empty string). -/
def load_integration_report (r : IntegrationReport) :
    Except String (List DeviceEntry) :=
  match r.LIPIdList with
  | none => Except.error "AssertionError"
  | some lip =>
    let zoneDevs := (lip.Zones.getD []).map (fun z =>
      let nm := (z.Area.getD { Name := none }).Name.getD ""
      { id := z.ID, name := z.Name, type := "light",
        area_name := if nm = "" then none else some nm : DeviceEntry })
    let devDevs := (lip.Devices.getD []).flatMap (fun d =>
      if d.ID = 1 then
        (d.Buttons.getD []).filterMap (fun b =>
          if pyStartsWith b.Name "Button " then none
          else some { id := d.ID, name := b.Name, type := "scene",
                      scene_id := some b.Number : DeviceEntry })
      else
        let nm := (d.Area.getD { Name := none }).Name.getD ""
        [{ id := d.ID, name := d.Name, type := "sensor",
           buttons := some ((d.Buttons.getD []).map (fun b => b.Number)),
           area_name := some nm : DeviceEntry }])
    Except.ok (zoneDevs ++ devDevs)

/-- _process_zones (liplib.py): "area_name" is set exactly when the zone
has an "Area" object with a "Name" key (even an empty string). -/
def process_zones (zones : List ZoneJson) : List DeviceEntry :=
  zones.map (fun z =>
    { id := z.ID, name := z.Name, type := "light",
      area_name := z.Area.bind (fun a => a.Name) })

/-- _process_scenes (liplib.py): one "scene" descriptor per button of the
bridge device whose name does not start with "Button ". -/
def process_scenes (d : DeviceJson) : List DeviceEntry :=
  (d.Buttons.getD []).filterMap (fun b =>
    if pyStartsWith b.Name "Button " then none
    else some { id := d.ID, name := b.Name, type := "scene",
                scene_id := some b.Number : DeviceEntry })

/-- async_load_integration_report (liplib.py), applied to the parsed
document. A missing "LIPIdList" key logs a warning and returns the empty
list. Devices are processed only when they carry a "Buttons" key: ID 1
goes through _process_scenes, the rest become "sensor" descriptors whose
"area_name" is set exactly when Area/Name keys are present. -/
def async_load_integration_report (r : IntegrationReport) :
    List DeviceEntry :=
  match r.LIPIdList with
  | none => []
  | some lip =>
    let zoneDevs := match lip.Zones with
      | none => []
      | some zones => process_zones zones
    let devDevs := match lip.Devices with
      | none => []
      | some devs => devs.flatMap (fun d =>
          match d.Buttons with
          | none => []
          | some btns =>
            if d.ID = 1 then process_scenes d
            else
              [{ id := d.ID, name := d.Name, type := "sensor",
                 buttons := some (btns.map (fun b => b.Number)),
                 area_name := d.Area.bind (fun a => a.Name) : DeviceEntry }])
    zoneDevs ++ devDevs

/-- LipServer._read_until (liplib.py) with a bytes value. Unlike the
__init__.py variant there is no zero-byte check: a read that returns no
bytes just loops, so a closed peer (exhausted events, or an endless run of
empty chunks) makes the source loop forever, modelled as none. Only an
OSError produces the False sentinel. -/
def liplibReadUntilLit (pat : Bytes) (buf : Bytes)
    (events : List ReadEvent) : Option (Bool × Bytes × List ReadEvent) :=
  match bytesFind buf pat with
  | some w => some (true, buf.drop (w + pat.length), events)
  | none =>
      match events with
      | [] => none
      | ReadEvent.chunk d :: rest => liplibReadUntilLit pat (buf ++ d) rest
      | ReadEvent.ioError :: rest => some (false, buf, rest)

/-- LipServer.open (liplib.py). Same guard, credential storing and connect
handling as the __init__.py variant, but the three handshake waits ignore
the result of _read_until: after them the state is set to Opened
unconditionally, even if every wait hit an OSError. none models the
divergence of a wait on a silently closed peer. -/
def liplibOpen (s : LipServer) (host : Option String) (port : Int)
    (username password : Bytes) (co : ConnectOutcome) :
    Option (LipServer × Bytes) :=
  if s.state ≠ ConnState.Closed then some (s, [])
  else
    let s1 := { s with state := ConnState.Opening, host := host, port := port,
                       username := username, password := password }
    match co with
    | ConnectOutcome.connectError =>
        some ({ s1 with state := ConnState.Closed }, [])
    | ConnectOutcome.connected evs =>
      let s2 := { s1 with reader := evs }
      match liplibReadUntilLit (strBytes "login: ") s2.read_buffer s2.reader with
      | none => none
      | some (_, b1, e1) =>
        let w1 := username ++ CRLF
        match liplibReadUntilLit (strBytes "password: ") b1 e1 with
        | none => none
        | some (_, b2, e2) =>
          let w2 := w1 ++ password ++ CRLF
          match liplibReadUntilLit s2.prompt b2 e2 with
          | none => none
          | some (_, b3, e3) =>
              some ({ s2 with read_buffer := b3, reader := e3,
                              state := ConnState.Opened }, w2)

/-- Modelled from the spec (for the refinement claim about write): the
line "#mode,integration,action", then ",value" when value is present,
then each non-absent extra positional argument in order, each with a
comma, terminated by CRLF. -/
def specExtraArgs : List (Option Int) → String
  | [] => ""
  | none :: rest => specExtraArgs rest
  | some v :: rest => "," ++ toString v ++ specExtraArgs rest

/-- Modelled from the spec: the full command line write is said to send. -/
def specWriteLine (mode : String) (integration action : Int)
    (args : List (Option Int)) (value : Option Int) : String :=
  "#" ++ mode ++ "," ++ toString integration ++ "," ++ toString action
    ++ (match value with | some v => "," ++ toString v | none => "")
    ++ specExtraArgs args ++ "\r\n"

/-! Concrete fixtures shared by several witnesses and counterexamples. -/

/-- A session in Opened state with default stored fields. -/
def openedServer : LipServer :=
  { LipServer.init with state := ConnState.Opened }

/-- An Opened session whose next socket read raises OSError. -/
def failServer : LipServer :=
  { LipServer.init with state := ConnState.Opened,
                        host := some "bridge",
                        reader := [ReadEvent.ioError] }

/-- An integration report without the top-level LIPIdList key. -/
def noListDoc : IntegrationReport := { LIPIdList := none }

/-- The one-zone one-device inventory document of the spec's example. -/
def doc8 : IntegrationReport :=
  { LIPIdList := some
      { Zones := some [{ ID := 2, Name := "Kitchen",
                         Area := some { Name := some "Main" } }],
        Devices := some [{ ID := 1, Name := "Smart Bridge",
                           Buttons := some [{ Number := 3, Name := "Dinner" },
                                            { Number := 4, Name := "Button 4" }],
                           Area := none }] } }

/-- C2: on a session in Closed state, read() returns the absent 4-tuple and
write(), query(), ping() and logout() return nothing; none of them writes
or reads socket bytes or changes the session (state, stored endpoint and
credentials, read buffer all unchanged). -/
theorem closed_ops_noop (s : LipServer) (hs : s.state = ConnState.Closed) :
    (∀ co, s.read co = (absentTuple, s, [], [])) ∧
    (∀ mode integration action args value wo,
      s.write mode integration action args value wo = (s, [])) ∧
    (∀ mode integration action,
      s.query mode integration action = (s, [], none)) ∧
    s.ping = (s, [], none) ∧
    (∀ wo, s.logout wo = (s, [], none)) := by
  refine ⟨?_, ?_, ?_, ?_, ?_⟩ <;> intros <;>
    simp [LipServer.read, LipServer.write, LipServer.query, LipServer.ping,
      LipServer.logout, hs]

/-- Witness for C2 at the freshly initialized (Closed) session. -/
theorem closed_ops_noop_witness :
    LipServer.init.state = ConnState.Closed ∧
    LipServer.init.read ConnectOutcome.connectError =
      (absentTuple, LipServer.init, [], []) ∧
    LipServer.init.ping = (LipServer.init, [], none) :=
  ⟨rfl, (closed_ops_noop LipServer.init rfl).1 ConnectOutcome.connectError,
    (closed_ops_noop LipServer.init rfl).2.2.2.1⟩

/-- C6: open() on a session whose state is Opening or Opened returns
immediately: the session is unchanged (state, stored endpoint and
credentials), no connect is attempted and nothing is written. -/
theorem open_idempotent_not_closed (s : LipServer) (host : Option String)
    (port : Int) (username password : Bytes) (co : ConnectOutcome)
    (hs : s.state = ConnState.Opening ∨ s.state = ConnState.Opened) :
    s.open host port username password co = (s, []) := by
  rcases hs with h | h <;> simp [LipServer.open, h]

/-- Witness for C6 at a concrete Opened session. -/
theorem open_idempotent_not_closed_witness :
    openedServer.state = ConnState.Opened ∧
    openedServer.open (some "h") 23 DEFAULT_USER DEFAULT_PASSWORD
      ConnectOutcome.connectError = (openedServer, []) :=
  ⟨rfl, open_idempotent_not_closed openedServer (some "h") 23 DEFAULT_USER
    DEFAULT_PASSWORD ConnectOutcome.connectError (Or.inr rfl)⟩

/-- C5 counterexample: on an Opened session, a write() whose socket write
raises OSError leaves the state Opened, not Closed: the handler only logs. -/
theorem write_error_leaves_opened :
    ¬ ((openedServer.write "OUTPUT" 2 1 [] (some 75)
        WriteOutcome.ioError).1.state = ConnState.Closed) := by
  decide

/-- C5 amended: logout() on an Opened session whose socket write succeeds
sets the state to Closed and raises nothing; a write() whose socket write
raises OSError swallows the error and leaves the whole session unchanged
(still Opened). -/
theorem logout_closes_write_error_swallowed (s : LipServer)
    (hs : s.state = ConnState.Opened) :
    (s.logout WriteOutcome.ok).1.state = ConnState.Closed ∧
    (s.logout WriteOutcome.ok).2.2 = none ∧
    (∀ mode integration action args value,
      (s.write mode integration action args value WriteOutcome.ioError).1
        = s) := by
  refine ⟨?_, ?_, ?_⟩ <;> intros <;> simp [LipServer.logout, LipServer.write, hs]

/-- Witness for the amended C5 at a concrete Opened session. -/
theorem logout_closes_write_error_swallowed_witness :
    openedServer.state = ConnState.Opened ∧
    (openedServer.logout WriteOutcome.ok).1.state = ConnState.Closed ∧
    (openedServer.write "OUTPUT" 2 1 [] none WriteOutcome.ioError).1
      = openedServer :=
  ⟨rfl, (logout_closes_write_error_swallowed openedServer rfl).1,
    (logout_closes_write_error_swallowed openedServer rfl).2.2
      "OUTPUT" 2 1 [] none⟩

/-- C4 counterexample: in the legacy liplib.py variant, open() on a fresh
session whose connection is established but whose reads then all raise
OSError (every handshake wait fails) ends with state Opened and
is_connected true, not Closed. -/
theorem liplib_open_handshake_failure_opened :
    (liplibOpen LipServer.init (some "bridge") 23 DEFAULT_USER
        DEFAULT_PASSWORD (ConnectOutcome.connected
          [ReadEvent.ioError, ReadEvent.ioError, ReadEvent.ioError])).map
      (fun r => (r.1.state, r.1.is_connected))
      = some (ConnState.Opened, true) := by
  decide

/-- C8: the spec's inventory example yields exactly two descriptors, in
order: the Kitchen light with its area and the Dinner scene keyed by
button 3; the button named with the "Button " literal yields none. Both
the __init__.py loader and the legacy async loader agree on it. -/
theorem inventory_example_two_descriptors :
    load_integration_report doc8 = Except.ok
      [{ id := 2, name := "Kitchen", type := "light",
         area_name := some "Main" },
       { id := 1, name := "Dinner", type := "scene", scene_id := some 3 }] ∧
    async_load_integration_report doc8 =
      [{ id := 2, name := "Kitchen", type := "light",
         area_name := some "Main" },
       { id := 1, name := "Dinner", type := "scene", scene_id := some 3 }] :=
  ⟨rfl, rfl⟩

/-- C9 counterexample: on a document without the LIPIdList key, the
__init__.py loader load_integration_report raises AssertionError; it does
not return an empty device list to its caller. -/
theorem load_report_missing_key_asserts :
    load_integration_report noListDoc = Except.error "AssertionError" ∧
    ¬ (load_integration_report noListDoc = Except.ok []) :=
  ⟨rfl, fun h => Except.noConfusion h⟩

/-- C9 amended: the legacy async loader (liplib.py) logs a warning and
returns an empty device list when LIPIdList is missing; the __init__.py
loader instead asserts, propagating an AssertionError. -/
theorem async_load_missing_key_empty :
    async_load_integration_report noListDoc = [] := rfl

/-- Helper: open() on a Closed session whose connect raises OSError ends
Closed again. -/
theorem open_connectError_closed (s : LipServer) (host : Option String)
    (port : Int) (username password : Bytes)
    (hs : s.state = ConnState.Closed) :
    (s.open host port username password ConnectOutcome.connectError).1.state
      = ConnState.Closed := by
  simp [LipServer.open, hs]

/-- Helper: read() on an Opened session whose read-until yields the False
sentinel returns the absent tuple, invokes open() exactly once with the
stored host/port/username/password, and (when that reconnect's connect
fails) leaves the state Closed. -/
theorem read_on_failure (s : LipServer) (co : ConnectOutcome)
    (hs : s.state = ConnState.Opened)
    (hf : (read_until_re s.read_buffer s.reader).1 = none) :
    (s.read co).1 = absentTuple ∧
    (s.read co).2.2.2 = [(s.host, s.port, s.username, s.password)] ∧
    (co = ConnectOutcome.connectError →
      (s.read co).2.1.state = ConnState.Closed) := by
  rcases hr : read_until_re s.read_buffer s.reader with ⟨m, buf, evs⟩
  rw [hr] at hf
  simp only at hf
  subst hf
  refine ⟨?_, ?_, ?_⟩
  · simp [LipServer.read, hs, hr]
  · simp [LipServer.read, hs, hr]
  · intro hco
    subst hco
    simp only [LipServer.read, hs, hr]
    simp only [ne_eq, reduceCtorEq, not_false_eq_true, if_false]
    exact open_connectError_closed _ _ _ _ _ rfl

/-- C1: a read() on an Opened session whose read-until loop yields the
failure sentinel (zero-byte read or OSError) sets the state to Closed,
makes exactly one reconnect attempt by invoking open() with the stored
host, port, username and password, and returns the absent 4-tuple for
every outcome of that attempt; when the reconnect's connect fails the
state observed afterwards is still Closed. -/
theorem read_failure_reconnects_once (s : LipServer) (co : ConnectOutcome)
    (hs : s.state = ConnState.Opened)
    (hf : (read_until_re s.read_buffer s.reader).1 = none) :
    (s.read co).1 = absentTuple ∧
    (s.read co).2.2.2 = [(s.host, s.port, s.username, s.password)] ∧
    (co = ConnectOutcome.connectError →
      (s.read co).2.1.state = ConnState.Closed) :=
  read_on_failure s co hs hf

/-- Witness for C1: an Opened session whose socket read raises OSError. -/
theorem read_failure_reconnects_once_witness :
    failServer.state = ConnState.Opened ∧
    (read_until_re failServer.read_buffer failServer.reader).1 = none ∧
    (failServer.read ConnectOutcome.connectError).1 = absentTuple ∧
    (failServer.read ConnectOutcome.connectError).2.2.2 =
      [(some "bridge", 23, DEFAULT_USER, DEFAULT_PASSWORD)] ∧
    (failServer.read ConnectOutcome.connectError).2.1.state
      = ConnState.Closed := by
  refine ⟨rfl, by decide, ?_, ?_, ?_⟩
  · exact (read_failure_reconnects_once failServer ConnectOutcome.connectError
      rfl (by decide)).1
  · exact (read_failure_reconnects_once failServer ConnectOutcome.connectError
      rfl (by decide)).2.1
  · exact (read_failure_reconnects_once failServer ConnectOutcome.connectError
      rfl (by decide)).2.2 rfl

/-- C10: open() on a Closed session overwrites the stored host, port,
username and password with the call's arguments before the connect is
attempted, so they are in place whatever the outcome (connect error,
handshake failure or success); consequently an Opened session carrying
those stored values reconnects with them on a read failure. -/
theorem open_stores_endpoint_first (s : LipServer) (host : Option String)
    (port : Int) (username password : Bytes) (co : ConnectOutcome)
    (hs : s.state = ConnState.Closed) :
    ((s.open host port username password co).1.host = host ∧
     (s.open host port username password co).1.port = port ∧
     (s.open host port username password co).1.username = username ∧
     (s.open host port username password co).1.password = password) ∧
    (∀ (t : LipServer) (co2 : ConnectOutcome),
      t.state = ConnState.Opened → t.host = host → t.port = port →
      t.username = username → t.password = password →
      (read_until_re t.read_buffer t.reader).1 = none →
      (t.read co2).2.2.2 = [(host, port, username, password)]) := by
  constructor
  · rcases co with _ | evs
    · simp [LipServer.open, hs]
    · rcases hr1 : read_until_lit LOGIN_PROMPT s.read_buffer evs
        with ⟨r1, b1, e1⟩
      rcases hr2 : read_until_lit (strBytes "password: ") b1 e1
        with ⟨r2, b2, e2⟩
      rcases hr3 : read_until_lit s.prompt b2 e2 with ⟨r3, b3, e3⟩
      cases r1 <;> cases r2 <;> cases r3 <;>
        simp [LipServer.open, hs, hr1, hr2, hr3]
  · intro t co2 ht h1 h2 h3 h4 hf
    have h := (read_on_failure t co2 ht hf).2.1
    rw [h1, h2, h3, h4] at h
    exact h

/-- Witness for C10: a failed open on a fresh session stores the new
endpoint, and a session opened with those values reconnects using them. -/
theorem open_stores_endpoint_first_witness :
    LipServer.init.state = ConnState.Closed ∧
    (LipServer.init.open (some "bridge") 23 DEFAULT_USER DEFAULT_PASSWORD
      ConnectOutcome.connectError).1.host = some "bridge" ∧
    (LipServer.init.open (some "bridge") 23 DEFAULT_USER DEFAULT_PASSWORD
      ConnectOutcome.connectError).1.username = DEFAULT_USER ∧
    (failServer.read ConnectOutcome.connectError).2.2.2 =
      [(some "bridge", 23, DEFAULT_USER, DEFAULT_PASSWORD)] := by
  refine ⟨rfl, ?_, ?_, ?_⟩
  · exact (open_stores_endpoint_first LipServer.init (some "bridge") 23
      DEFAULT_USER DEFAULT_PASSWORD ConnectOutcome.connectError rfl).1.1
  · exact (open_stores_endpoint_first LipServer.init (some "bridge") 23
      DEFAULT_USER DEFAULT_PASSWORD ConnectOutcome.connectError rfl).1.2.2.1
  · exact (open_stores_endpoint_first LipServer.init (some "bridge") 23
      DEFAULT_USER DEFAULT_PASSWORD ConnectOutcome.connectError rfl).2
      failServer ConnectOutcome.connectError rfl rfl rfl rfl rfl (by decide)

/-- C4 amended: in the __init__.py LipServer, an open() that establishes
the TCP connection but then fails any of the three handshake waits (login
marker, password marker, configured prompt) because the connection closed
or errored before the marker appeared resets the state to Closed and
returns without raising, so is_connected() is false afterwards. (The
legacy liplib.py variant instead ignores the wait results; see the
counterexample.) -/
theorem open_handshake_failure_closes (s : LipServer) (host : Option String)
    (port : Int) (username password : Bytes) (evs : List ReadEvent)
    (hs : s.state = ConnState.Closed)
    (hfail :
      (read_until_lit LOGIN_PROMPT s.read_buffer evs).1 = UntilResult.failed ∨
      ((read_until_lit LOGIN_PROMPT s.read_buffer evs).1 ≠ UntilResult.failed ∧
        (read_until_lit (strBytes "password: ")
          (read_until_lit LOGIN_PROMPT s.read_buffer evs).2.1
          (read_until_lit LOGIN_PROMPT s.read_buffer evs).2.2).1
            = UntilResult.failed) ∨
      ((read_until_lit LOGIN_PROMPT s.read_buffer evs).1 ≠ UntilResult.failed ∧
        (read_until_lit (strBytes "password: ")
          (read_until_lit LOGIN_PROMPT s.read_buffer evs).2.1
          (read_until_lit LOGIN_PROMPT s.read_buffer evs).2.2).1
            ≠ UntilResult.failed ∧
        (read_until_lit s.prompt
          (read_until_lit (strBytes "password: ")
            (read_until_lit LOGIN_PROMPT s.read_buffer evs).2.1
            (read_until_lit LOGIN_PROMPT s.read_buffer evs).2.2).2.1
          (read_until_lit (strBytes "password: ")
            (read_until_lit LOGIN_PROMPT s.read_buffer evs).2.1
            (read_until_lit LOGIN_PROMPT s.read_buffer evs).2.2).2.2).1
              = UntilResult.failed)) :
    (s.open host port username password (ConnectOutcome.connected evs)).1.state
      = ConnState.Closed ∧
    (s.open host port username password
      (ConnectOutcome.connected evs)).1.is_connected = false := by
  rcases hr1 : read_until_lit LOGIN_PROMPT s.read_buffer evs with ⟨r1, b1, e1⟩
  rcases hr2 : read_until_lit (strBytes "password: ") b1 e1 with ⟨r2, b2, e2⟩
  rcases hr3 : read_until_lit s.prompt b2 e2 with ⟨r3, b3, e3⟩
  rw [hr1] at hfail
  simp only at hfail
  rw [hr2] at hfail
  simp only at hfail
  rw [hr3] at hfail
  simp only at hfail
  cases r1 with
  | failed =>
      constructor <;> simp [LipServer.open, hs, hr1, LipServer.is_connected]
  | matched u1 =>
    cases r2 with
    | failed =>
        constructor <;>
          simp [LipServer.open, hs, hr1, hr2, LipServer.is_connected]
    | matched u2 =>
      cases r3 with
      | failed =>
          constructor <;>
            simp [LipServer.open, hs, hr1, hr2, hr3, LipServer.is_connected]
      | matched u3 =>
          rcases hfail with h | ⟨_, h⟩ | ⟨_, _, h⟩ <;> exact absurd h (by simp)

/-- Witness for the amended C4: a fresh session whose connection delivers
no bytes at all (peer closes before the login prompt). -/
theorem open_handshake_failure_closes_witness :
    LipServer.init.state = ConnState.Closed ∧
    (read_until_lit LOGIN_PROMPT LipServer.init.read_buffer []).1
      = UntilResult.failed ∧
    (LipServer.init.open (some "bridge") 23 DEFAULT_USER DEFAULT_PASSWORD
      (ConnectOutcome.connected [])).1.state = ConnState.Closed ∧
    (LipServer.init.open (some "bridge") 23 DEFAULT_USER DEFAULT_PASSWORD
      (ConnectOutcome.connected [])).1.is_connected = false := by
  refine ⟨rfl, by decide, ?_, ?_⟩
  · exact (open_handshake_failure_closes LipServer.init (some "bridge") 23
      DEFAULT_USER DEFAULT_PASSWORD [] rfl (Or.inl (by decide))).1
  · exact (open_handshake_failure_closes LipServer.init (some "bridge") 23
      DEFAULT_USER DEFAULT_PASSWORD [] rfl (Or.inl (by decide))).2

/-- Helper: the source's fold over the extra positional arguments equals
appending the spec-side rendering of the non-absent arguments. -/
theorem write_foldl_extraArgs (args : List (Option Int)) (d : String) :
    args.foldl (fun d a =>
      match a with
      | some v => d ++ ("," ++ toString v)
      | none => d) d = d ++ specExtraArgs args := by
  induction args generalizing d with
  | nil => simp [specExtraArgs]
  | cons a rest ih =>
    cases a with
    | none => simp [specExtraArgs, ih]
    | some v => simp [specExtraArgs, ih, String.append_assoc]

/-- C7: a write() on an Opened session sends exactly the ASCII encoding of
the line "#mode,integration,action", then ",value" when value is present,
then each non-absent extra positional argument in order each with a comma,
terminated by CRLF — the spec-side line specWriteLine. -/
theorem write_sends_spec_line (s : LipServer) (mode : String)
    (integration action : Int) (args : List (Option Int))
    (value : Option Int) (hs : s.state = ConnState.Opened) :
    (s.write mode integration action args value WriteOutcome.ok).2
      = strBytes (specWriteLine mode integration action args value) := by
  cases value with
  | none =>
      simp [LipServer.write, hs, specWriteLine, write_foldl_extraArgs,
        String.append_assoc]
  | some v =>
      simp [LipServer.write, hs, specWriteLine, write_foldl_extraArgs,
        String.append_assoc]

/-- Witness for C7: write("OUTPUT", 2, 1, value=75) sends exactly
"#OUTPUT,2,1,75" CRLF. -/
theorem write_sends_spec_line_witness :
    openedServer.state = ConnState.Opened ∧
    (openedServer.write "OUTPUT" 2 1 [] (some 75) WriteOutcome.ok).2
      = strBytes "#OUTPUT,2,1,75\r\n" :=
  ⟨rfl, (write_sends_spec_line openedServer "OUTPUT" 2 1 [] (some 75)
    rfl).trans (by decide)⟩

/-- A complete wire response line with the four given group texts. -/
def mkLine (g1 g2 g3 g4 : Bytes) : Bytes :=
  126 :: (g1 ++ 44 :: (g2 ++ 44 :: (g3 ++ 44 :: (g4 ++ [13, 10]))))

/-- The groups fill their character classes and are nonempty, so mkLine is
exactly one full match of RESPONSE_RE. -/
abbrev wfLine (g1 g2 g3 g4 : Bytes) : Prop :=
  g1 ≠ [] ∧ (∀ b ∈ g1, isUpperB b = true) ∧
  g2 ≠ [] ∧ (∀ b ∈ g2, isNumDotB b = true) ∧
  g3 ≠ [] ∧ (∀ b ∈ g3, isNumDotB b = true) ∧
  g4 ≠ [] ∧ (∀ b ∈ g4, isNumDotB b = true)

/-- A maximal run followed by a stop byte is taken whole by takeWhile. -/
theorem takeWhile_run (p : Byte → Bool) (g : Bytes) (c : Byte) (rest : Bytes)
    (hg : ∀ b ∈ g, p b = true) (hc : p c = false) :
    (g ++ c :: rest).takeWhile p = g := by
  induction g with
  | nil => simp [List.takeWhile_cons, hc]
  | cons a t ih =>
    have ha : p a = true := hg a (List.mem_cons_self a t)
    simp [List.takeWhile_cons, ha,
      ih (fun b hb => hg b (List.mem_cons_of_mem a hb))]

/-- matchFrom on a well-formed line followed by anything matches exactly
the line, capturing its four groups. -/
theorem matchFrom_mkLine (g1 g2 g3 g4 suffix : Bytes)
    (h : wfLine g1 g2 g3 g4) :
    matchFrom (mkLine g1 g2 g3 g4 ++ suffix) =
      some (g1, g2, g3, g4,
        g1.length + g2.length + g3.length + g4.length + 6) := by
  obtain ⟨h1, h1a, h2, h2a, h3, h3a, h4, h4a⟩ := h
  have hne : ∀ g : Bytes, g ≠ [] → g.isEmpty = false := by
    intro g hg
    cases g with
    | nil => exact absurd rfl hg
    | cons a t => rfl
  have hms : mkLine g1 g2 g3 g4 ++ suffix
      = 126 :: (g1 ++ 44 :: (g2 ++ 44 :: (g3 ++ 44 :: (g4 ++ 13 :: 10 :: suffix)))) := by
    simp [mkLine]
  have e1 : (g1 ++ 44 :: (g2 ++ 44 :: (g3 ++ 44 :: (g4 ++ 13 :: 10 :: suffix)))).takeWhile isUpperB
      = g1 := takeWhile_run isUpperB g1 44 _ h1a (by decide)
  have d1 : (g1 ++ 44 :: (g2 ++ 44 :: (g3 ++ 44 :: (g4 ++ 13 :: 10 :: suffix)))).drop g1.length
      = 44 :: (g2 ++ 44 :: (g3 ++ 44 :: (g4 ++ 13 :: 10 :: suffix))) :=
    List.drop_left g1 _
  have e2 : (g2 ++ 44 :: (g3 ++ 44 :: (g4 ++ 13 :: 10 :: suffix))).takeWhile isNumDotB
      = g2 := takeWhile_run isNumDotB g2 44 _ h2a (by decide)
  have d2 : (g2 ++ 44 :: (g3 ++ 44 :: (g4 ++ 13 :: 10 :: suffix))).drop g2.length
      = 44 :: (g3 ++ 44 :: (g4 ++ 13 :: 10 :: suffix)) := List.drop_left g2 _
  have e3 : (g3 ++ 44 :: (g4 ++ 13 :: 10 :: suffix)).takeWhile isNumDotB
      = g3 := takeWhile_run isNumDotB g3 44 _ h3a (by decide)
  have d3 : (g3 ++ 44 :: (g4 ++ 13 :: 10 :: suffix)).drop g3.length
      = 44 :: (g4 ++ 13 :: 10 :: suffix) := List.drop_left g3 _
  have e4 : (g4 ++ 13 :: 10 :: suffix).takeWhile isNumDotB
      = g4 := takeWhile_run isNumDotB g4 13 _ h4a (by decide)
  have d4 : (g4 ++ 13 :: 10 :: suffix).drop g4.length
      = 13 :: 10 :: suffix := List.drop_left g4 _
  rw [hms]
  simp [matchFrom, e1, hne g1 h1, d1, e2, hne g2 h2, d2,
    e3, hne g3 h3, d3, e4, hne g4 h4, d4]

/-- RESPONSE_RE.search on a well-formed line followed by anything finds
the match at offset 0, ending exactly at the line's length. -/
theorem reSearch_mkLine (g1 g2 g3 g4 suffix : Bytes)
    (h : wfLine g1 g2 g3 g4) :
    reSearch (mkLine g1 g2 g3 g4 ++ suffix) =
      some ⟨g1, g2, g3, g4,
        g1.length + g2.length + g3.length + g4.length + 6⟩ := by
  have hm := matchFrom_mkLine g1 g2 g3 g4 suffix h
  have hms : mkLine g1 g2 g3 g4 ++ suffix
      = 126 :: (g1 ++ 44 :: (g2 ++ 44 :: (g3 ++ 44 :: (g4 ++ 13 :: 10 :: suffix)))) := by
    simp [mkLine]
  rw [hms] at hm
  rw [reSearch, hms]
  simp [reSearchAux, hm]

/-- The length of a full response line. -/
theorem mkLine_length (g1 g2 g3 g4 : Bytes) :
    (mkLine g1 g2 g3 g4).length
      = g1.length + g2.length + g3.length + g4.length + 6 := by
  simp [mkLine]
  omega

/-- Dropping exactly the line's length consumes the line and keeps the
remainder: nothing is dropped beyond the match, nothing is kept of it. -/
theorem mkLine_append_drop (g1 g2 g3 g4 suffix : Bytes) :
    (mkLine g1 g2 g3 g4 ++ suffix).drop
      (g1.length + g2.length + g3.length + g4.length + 6) = suffix := by
  rw [← mkLine_length g1 g2 g3 g4]
  exact List.drop_left _ _

/-- When the pattern already matches the buffer, read until returns the
match and advances the buffer past its end without touching the socket. -/
theorem read_until_re_search_some (buf : Bytes) (events : List ReadEvent)
    (m : ReMatch) (h : reSearch buf = some m) :
    read_until_re buf events = (some m, buf.drop m.endPos, events) := by
  rw [read_until_re.eq_def, h]

/-- First call on an empty buffer: one socket read delivers the chunk,
then the buffered chunk is matched. -/
theorem read_until_re_chunk (c : Bytes) (rest : List ReadEvent)
    (m : ReMatch) (hc : c ≠ []) (h : reSearch c = some m) :
    read_until_re [] (ReadEvent.chunk c :: rest)
      = (some m, c.drop m.endPos, rest) := by
  have h0 : reSearch ([] : Bytes) = none := rfl
  rw [read_until_re.eq_def, h0]
  simp only [List.length_eq_zero, hc, if_false, List.nil_append]
  exact read_until_re_search_some c rest m h

/-- C3: on an Opened session with an empty buffer whose next socket read
delivers two complete well-formed response lines in a single chunk, two
sequential read() calls return the two decoded 4-tuples in arrival order;
the first call consumes exactly through the end of the first line, leaving
the second line buffered, and the second call matches from that buffered
remainder, leaving an empty buffer — no byte of the stream is dropped or
duplicated, and no reconnect happens. -/
theorem read_two_lines_in_order (s : LipServer) (rest : List ReadEvent)
    (co co2 : ConnectOutcome) (a1 a2 a3 a4 b1 b2 b3 b4 : Bytes)
    (nA2 nA3 nB2 nB3 : Int) (qA4 qB4 : ℚ)
    (hs : s.state = ConnState.Opened)
    (hbuf : s.read_buffer = [])
    (hrd : s.reader
      = ReadEvent.chunk (mkLine a1 a2 a3 a4 ++ mkLine b1 b2 b3 b4) :: rest)
    (hA : wfLine a1 a2 a3 a4) (hB : wfLine b1 b2 b3 b4)
    (hA2 : pyIntParse a2 = some nA2) (hA3 : pyIntParse a3 = some nA3)
    (hA4 : pyFloatParse a4 = some qA4)
    (hB2 : pyIntParse b2 = some nB2) (hB3 : pyIntParse b3 = some nB3)
    (hB4 : pyFloatParse b4 = some qB4) :
    (s.read co).1 = (some (asciiDecode a1), some nA2, some nA3, some qA4) ∧
    (s.read co).2.1.read_buffer = mkLine b1 b2 b3 b4 ∧
    (s.read co).2.1.reader = rest ∧
    (s.read co).2.1.state = ConnState.Opened ∧
    (s.read co).2.2.2 = [] ∧
    ((s.read co).2.1.read co2).1
      = (some (asciiDecode b1), some nB2, some nB3, some qB4) ∧
    ((s.read co).2.1.read co2).2.1.read_buffer = [] ∧
    ((s.read co).2.1.read co2).2.1.reader = rest := by
  have hA6 := reSearch_mkLine a1 a2 a3 a4 (mkLine b1 b2 b3 b4) hA
  have hch : mkLine a1 a2 a3 a4 ++ mkLine b1 b2 b3 b4 ≠ [] := by
    simp [mkLine]
  have h1full : read_until_re []
      (ReadEvent.chunk (mkLine a1 a2 a3 a4 ++ mkLine b1 b2 b3 b4) :: rest)
      = (some ⟨a1, a2, a3, a4,
          a1.length + a2.length + a3.length + a4.length + 6⟩,
         mkLine b1 b2 b3 b4, rest) := by
    rw [read_until_re_chunk _ _ _ hch hA6]
    simp [mkLine_append_drop]
  have hB6 : reSearch (mkLine b1 b2 b3 b4)
      = some ⟨b1, b2, b3, b4,
          b1.length + b2.length + b3.length + b4.length + 6⟩ := by
    have h := reSearch_mkLine b1 b2 b3 b4 [] hB
    rwa [List.append_nil] at h
  have h2full : read_until_re (mkLine b1 b2 b3 b4) rest
      = (some ⟨b1, b2, b3, b4,
          b1.length + b2.length + b3.length + b4.length + 6⟩, [], rest) := by
    rw [read_until_re_search_some _ _ _ hB6]
    have hd : (mkLine b1 b2 b3 b4).drop
        (b1.length + b2.length + b3.length + b4.length + 6) = [] := by
      rw [← mkLine_length b1 b2 b3 b4]
      exact List.drop_length _
    simp [hd]
  have hread1 : s.read co =
      ((some (asciiDecode a1), some nA2, some nA3, some qA4),
       { s with read_buffer := mkLine b1 b2 b3 b4, reader := rest },
       [], []) := by
    simp [LipServer.read, hs, hbuf, hrd, h1full, hA2, hA3, hA4]
  have hread2 : ({ s with read_buffer := mkLine b1 b2 b3 b4,
                          reader := rest } : LipServer).read co2 =
      ((some (asciiDecode b1), some nB2, some nB3, some qB4),
       { s with read_buffer := [], reader := rest }, [], []) := by
    simp [LipServer.read, hs, h2full, hB2, hB3, hB4]
  refine ⟨?_, ?_, ?_, ?_, ?_, ?_, ?_, ?_⟩ <;> simp only [hread1, hread2]
  all_goals simp [hs]

/-- An Opened session whose next socket read delivers the two concrete
response lines "~OUTPUT,2,1,100.00" CRLF and "~DEVICE,3,4,1.5" CRLF in
one chunk. -/
def twoLineServer : LipServer :=
  { LipServer.init with
    state := ConnState.Opened,
    reader := [ReadEvent.chunk
      (mkLine (strBytes "OUTPUT") (strBytes "2") (strBytes "1")
          (strBytes "100.00") ++
        mkLine (strBytes "DEVICE") (strBytes "3") (strBytes "4")
          (strBytes "1.5"))] }

/-- Witness for C3 at the two concrete response lines. -/
theorem read_two_lines_in_order_witness :
    twoLineServer.state = ConnState.Opened ∧
    wfLine (strBytes "OUTPUT") (strBytes "2") (strBytes "1")
      (strBytes "100.00") ∧
    wfLine (strBytes "DEVICE") (strBytes "3") (strBytes "4")
      (strBytes "1.5") ∧
    pyFloatParse (strBytes "100.00") = some 100 ∧
    pyFloatParse (strBytes "1.5") = some (3 / 2 : ℚ) ∧
    (twoLineServer.read ConnectOutcome.connectError).1
      = (some "OUTPUT", some 2, some 1, some (100 : ℚ)) ∧
    (twoLineServer.read ConnectOutcome.connectError).2.1.read_buffer
      = mkLine (strBytes "DEVICE") (strBytes "3") (strBytes "4")
          (strBytes "1.5") ∧
    ((twoLineServer.read ConnectOutcome.connectError).2.1.read
        ConnectOutcome.connectError).1
      = (some "DEVICE", some 3, some 4, some (3 / 2 : ℚ)) ∧
    ((twoLineServer.read ConnectOutcome.connectError).2.1.read
        ConnectOutcome.connectError).2.1.read_buffer = [] := by
  have hf100 : pyFloatParse (strBytes "100.00") = some 100 := by
    have e1 : digitsToNat (strBytes "100") = 100 := rfl
    have e2 : digitsToNat (strBytes "00") = 0 := rfl
    rw [show pyFloatParse (strBytes "100.00") =
        some (((digitsToNat (strBytes "100")) : ℚ) +
          ((digitsToNat (strBytes "00")) : ℚ) / 10 ^ 2) from rfl, e1, e2]
    norm_num
  have hf15 : pyFloatParse (strBytes "1.5") = some (3 / 2 : ℚ) := by
    have e1 : digitsToNat (strBytes "1") = 1 := rfl
    have e2 : digitsToNat (strBytes "5") = 5 := rfl
    rw [show pyFloatParse (strBytes "1.5") =
        some (((digitsToNat (strBytes "1")) : ℚ) +
          ((digitsToNat (strBytes "5")) : ℚ) / 10 ^ 1) from rfl, e1, e2]
    norm_num
  have h := read_two_lines_in_order twoLineServer []
    ConnectOutcome.connectError ConnectOutcome.connectError
    (strBytes "OUTPUT") (strBytes "2") (strBytes "1") (strBytes "100.00")
    (strBytes "DEVICE") (strBytes "3") (strBytes "4") (strBytes "1.5")
    2 1 3 4 (100 : ℚ) (3 / 2 : ℚ) rfl rfl rfl
    (by decide) (by decide) (by decide) (by decide) hf100
    (by decide) (by decide) hf15
  exact ⟨rfl, by decide, by decide, hf100, hf15,
    h.1, h.2.1, h.2.2.2.2.2.1, h.2.2.2.2.2.2.1⟩
